import Mathlib

/-
Shallow embedding of the query-understanding / operation-dispatch pipeline
of the timesheet-invoice bot repository.

Modelling conventions:
  * Machine floats (Python `float`) are modelled as exact rationals (ℚ);
    every arithmetic step of the source is mirrored exactly.
  * Calendar dates (ISO `YYYY-MM-DD` strings processed through
    `strptime`/`strftime` and `timedelta(days=1)`) are modelled as day
    numbers of type Int; date ordering and day stepping coincide.
  * `datetime.now()` is modelled by an explicit `Clock` record carrying the
    pieces of the current instant the source reads: the `%Y%m` string, the
    microsecond-of-second, the current day number and the ISO timestamp
    string used for `created_at` / `updated_at`.
  * MongoDB is modelled by a `Store` of per-collection lists; `find_one`
    is first-match, `insert_one` appends, `update_one` updates the first
    matching document and reports `modified_count` = 1 exactly when the
    applied field set changed the document (Mongo semantics).  Invoice
    creation additionally returns a trace of the store operations it
    performed, in order.
  * Python dict truthiness (`if status:` etc.) is mirrored: a missing key
    or an empty string is falsy, and `0.0` is a falsy float.
-/

namespace TSBot

/-- Store access log entry: a read or a write of a named collection. -/
inductive StoreOp where
  | read (coll : String)
  | write (coll : String)
deriving DecidableEq, Repr

/-- One element of a timesheet's `entries` list (dict literal in
`TimesheetHandler.create_timesheet`). -/
structure TimesheetEntry where
  date : Int
  hours : ℚ
  description : Option String
deriving DecidableEq, Repr

/-- Timesheet document (dict literal at `timesheet_handler.py` lines 52-63).
The owning person is stored under the key `user_id` in the source. -/
structure Timesheet where
  timesheet_id : String
  project_id : String
  user_id : String
  start_date : Int
  end_date : Int
  status : String
  entries : List TimesheetEntry
  total_hours : ℚ
  created_at : String
  updated_at : String
deriving DecidableEq, Repr

/-- Invoice line item (`invoice_handler.py`; timesheet-sourced items carry a
`rate_type` key, expense-sourced items do not, hence the Option). -/
structure InvoiceItem where
  description : String
  quantity : ℚ
  rate : ℚ
  amount : ℚ
  rate_type : Option String
deriving DecidableEq, Repr

/-- Invoice document (dict literals in `invoice_handler.py`); exactly one of
`timesheet_id` / `expense_id` is present depending on the source entity. -/
structure Invoice where
  invoice_number : String
  project_id : Option String
  talent_id : Option String
  timesheet_id : Option String
  expense_id : Option String
  status : String
  items : List InvoiceItem
  currency : String
  issue_date : Int
  due_date : Int
  created_at : String
  updated_at : String
deriving DecidableEq, Repr

/-- Expense line item as read via `.get` in `create_expense_invoice`. -/
structure ExpenseItem where
  description : Option String
  quantity : Option ℚ
  amount : Option ℚ
deriving DecidableEq, Repr

/-- Expense document, with the fields `create_expense_invoice` reads. -/
structure Expense where
  expense_id : String
  project_id : Option String
  total_amount : Option ℚ
  currency : Option String
  items : List ExpenseItem
deriving DecidableEq, Repr

/-- Talent invoice (rate settings) record consulted during timesheet-invoice
creation; fields read with `.get` and a default in the source. -/
structure TalentInvoice where
  project_id : String
  talent_id : String
  talentInvoiceRateType : Option String
  talentInvoiceRateValue : Option ℚ
  talentInvoicingCurrency : Option String
deriving DecidableEq, Repr

/-- Billing information record; only its presence and the presence of a
`supply_address` key are consulted (and the outcome is unused). -/
structure BillingInfo where
  project_id : String
  has_supply_address : Bool
deriving DecidableEq, Repr

/-- The document store: one list per collection the embedded code touches. -/
structure Store where
  timesheets : List Timesheet := []
  invoices : List Invoice := []
  expenses : List Expense := []
  talentInvoices : List TalentInvoice := []
  billingInfos : List BillingInfo := []
deriving DecidableEq, Repr

/-- The pieces of `datetime.now()` the embedded code reads. -/
structure Clock where
  yyyymm : String
  microsecond : ℕ
  today : Int
  isoNow : String
deriving DecidableEq, Repr

/-- `find_one({"timesheet_id": tid})` — first match in the collection. -/
def Store.findTimesheet (st : Store) (tid : String) : Option Timesheet :=
  st.timesheets.find? (fun t => t.timesheet_id == tid)

/-- `find_one({"invoice_number": num})`. -/
def Store.findInvoice (st : Store) (num : String) : Option Invoice :=
  st.invoices.find? (fun v => v.invoice_number == num)

/-- `find_one({"expense_id": eid})`. -/
def Store.findExpense (st : Store) (eid : String) : Option Expense :=
  st.expenses.find? (fun x => x.expense_id == eid)

/-- `find_one({"project_id": pid, "talent_id": tid})` on `talentInvoice`. -/
def Store.findTalentInvoice (st : Store) (pid tid : String) : Option TalentInvoice :=
  st.talentInvoices.find? (fun v => v.project_id == pid && v.talent_id == tid)

/-- `find_one({"project_id": pid})` on `billingInformation`. -/
def Store.findBillingInfo (st : Store) (pid : String) : Option BillingInfo :=
  st.billingInfos.find? (fun b => b.project_id == pid)

/-- Mongo `update_one`: update the first document satisfying `p` with the
field set `f`; report `modified_count` (1 iff a matched document actually
changed) together with the updated collection. -/
def updateFirstBy {α : Type} [DecidableEq α] (p : α → Bool) (f : α → α) :
    List α → ℕ × List α
  | [] => (0, [])
  | x :: rest =>
    if p x then
      (if f x = x then 0 else 1, f x :: rest)
    else
      let r := updateFirstBy p f rest
      (r.1, x :: r.2)

/-- Python truthiness of an optional string value from an entities dict:
a missing key and the empty string are falsy. -/
def truthyS : Option String → Bool
  | none => false
  | some s => !s.isEmpty

/-- Python truthiness of an optional float: missing and `0.0` are falsy. -/
def truthyQ : Option ℚ → Bool
  | none => false
  | some q => q != 0

/-- Python `a or b` on two optional string values. -/
def pyOr (a b : Option String) : Option String :=
  if truthyS a then a else b

/-- Invoice amount computation, the `if/elif` chain of
`InvoiceHandler.create_timesheet_invoice` (lines 52-66): starting from
`invoice_amount = 0.0`, each recognised rate type overwrites it and an
unrecognised rate type leaves it at 0. -/
def invoiceAmount (rate_type : String) (total_hours rate_value : ℚ) : ℚ :=
  if rate_type = "Hourly" then total_hours * rate_value
  else if rate_type = "Daily" then total_hours / 8 * rate_value
  else if rate_type = "Weekly" then total_hours / (8 * 5) * rate_value
  else if rate_type = "Monthly" then total_hours / (8 * 20) * rate_value
  else 0

/-- The entry-generation loop body of `create_timesheet` /
`update_timesheet_dates`: `n` more days to emit starting at day `d`. -/
def genEntriesAux (h : ℚ) : ℕ → Int → List TimesheetEntry
  | 0, _ => []
  | n + 1, d => { date := d, hours := h, description := none } :: genEntriesAux h n (d + 1)

/-- Number of iterations of `while current_date <= end` starting at `start`:
zero when `start > end`, else `end - start + 1`. -/
def dayCount (s e : Int) : ℕ := (e + 1 - s).toNat

/-- Entries generated for the inclusive range `[s, e]` at `h` hours/day. -/
def generateEntries (s e : Int) (h : ℚ) : List TimesheetEntry :=
  genEntriesAux h (dayCount s e) s

/-- `total_hours` accumulated by the generation loop (one `+= h` per
appended entry). -/
def generatedTotalHours (s e : Int) (h : ℚ) : ℚ :=
  ((generateEntries s e h).map (fun x => x.hours)).sum

/-- `TimesheetHandler.create_timesheet`: build the timesheet document and
insert it into the `timesheets` collection. -/
def createTimesheet (c : Clock) (st : Store) (project_id talent_id : String)
    (start_date end_date : Int) (hours_per_day : ℚ) : Timesheet × Store :=
  let timesheet_id := "TS-" ++ c.yyyymm ++ "-" ++ toString (c.microsecond % 1000)
  let entries := generateEntries start_date end_date hours_per_day
  let total_hours := generatedTotalHours start_date end_date hours_per_day
  let ts : Timesheet := {
    timesheet_id := timesheet_id
    project_id := project_id
    user_id := talent_id
    start_date := start_date
    end_date := end_date
    status := "draft"
    entries := entries
    total_hours := total_hours
    created_at := c.isoNow
    updated_at := c.isoNow }
  (ts, { st with timesheets := st.timesheets ++ [ts] })

/-- The timesheet document as the key/value dict literally built at
`timesheet_handler.py` lines 52-63 (keys in source order). -/
inductive DocValue where
  | str (s : String)
  | day (d : Int)
  | rat (q : ℚ)
  | entryList (l : List TimesheetEntry)
deriving DecidableEq, Repr

/-- Field list of the timesheet dict literal of `create_timesheet`. -/
def timesheetDoc (t : Timesheet) : List (String × DocValue) :=
  [("timesheet_id", .str t.timesheet_id),
   ("project_id", .str t.project_id),
   ("user_id", .str t.user_id),
   ("start_date", .day t.start_date),
   ("end_date", .day t.end_date),
   ("status", .str t.status),
   ("entries", .entryList t.entries),
   ("total_hours", .rat t.total_hours),
   ("created_at", .str t.created_at),
   ("updated_at", .str t.updated_at)]

/-- The `$set` document of `update_timesheet_dates`. -/
def datesSet (c : Clock) (start_date end_date : Int) (hours_per_day : ℚ)
    (t : Timesheet) : Timesheet :=
  { t with
    start_date := start_date
    end_date := end_date
    entries := generateEntries start_date end_date hours_per_day
    total_hours := generatedTotalHours start_date end_date hours_per_day
    updated_at := c.isoNow }

/-- The `$set` document of `update_timesheet_status`. -/
def statusSet (c : Clock) (status : String) (t : Timesheet) : Timesheet :=
  { t with status := status, updated_at := c.isoNow }

/-- The `$set` document of `update_invoice_status`. -/
def invStatusSet (c : Clock) (status : String) (v : Invoice) : Invoice :=
  { v with status := status, updated_at := c.isoNow }

/-- `TimesheetHandler.update_timesheet_dates`: fetch, regenerate the whole
entry list for the new range, `$set` the date fields, entry list,
`total_hours` and `updated_at`, raise when nothing was modified, then
re-read the document. -/
def updateTimesheetDates (c : Clock) (st : Store) (tid : String)
    (start_date end_date : Int) (hours_per_day : ℚ) :
    Except String (Option Timesheet) × Store :=
  match st.findTimesheet tid with
  | none => (.error ("Timesheet " ++ tid ++ " not found"), st)
  | some _ =>
    let r := updateFirstBy (fun t => t.timesheet_id == tid)
      (datesSet c start_date end_date hours_per_day) st.timesheets
    let st' := { st with timesheets := r.2 }
    if r.1 = 0 then (.error ("Failed to update timesheet " ++ tid), st')
    else (.ok (st'.findTimesheet tid), st')

/-- `TimesheetHandler.update_timesheet_status`: validate the status value,
`$set` status and `updated_at`, treat `modified_count == 0` as not-found,
then re-read the document. -/
def updateTimesheetStatus (c : Clock) (st : Store) (tid status : String) :
    Except String (Option Timesheet) × Store :=
  if status ∈ ["draft", "submitted", "approved", "rejected"] then
    let r := updateFirstBy (fun t => t.timesheet_id == tid)
      (statusSet c status) st.timesheets
    let st' := { st with timesheets := r.2 }
    if r.1 = 0 then (.error ("Timesheet " ++ tid ++ " not found"), st')
    else (.ok (st'.findTimesheet tid), st')
  else (.error ("Invalid status: " ++ status), st)

/-- `InvoiceHandler.update_invoice_status`, same shape as the timesheet
status update. -/
def updateInvoiceStatus (c : Clock) (st : Store) (num status : String) :
    Except String (Option Invoice) × Store :=
  if status ∈ ["draft", "sent", "paid", "cancelled"] then
    let r := updateFirstBy (fun v => v.invoice_number == num)
      (invStatusSet c status) st.invoices
    let st' := { st with invoices := r.2 }
    if r.1 = 0 then (.error ("Invoice " ++ num ++ " not found"), st')
    else (.ok (st'.findInvoice num), st')
  else (.error ("Invalid status: " ++ status), st)

/-- `InvoiceHandler.create_timesheet_invoice`: read the timesheet, the rate
settings and the billing info, compute the amount by rate type, build the
single synthetic line item, insert the invoice; store-operation trace is
returned alongside. -/
def createTimesheetInvoice (c : Clock) (st : Store) (tsid : String) :
    Except String Invoice × Store × List StoreOp :=
  match st.findTimesheet tsid with
  | none => (.error ("Timesheet " ++ tsid ++ " not found"), st, [.read "timesheets"])
  | some ts =>
    let project_id := ts.project_id
    let talent_id := ts.user_id
    match st.findTalentInvoice project_id talent_id with
    | none =>
      (.error ("Talent invoice settings not found for project " ++ project_id ++
          " and talent " ++ talent_id), st,
        [.read "timesheets", .read "talentInvoice"])
    | some ti =>
      let rate_type := ti.talentInvoiceRateType.getD "Hourly"
      let rate_value := ti.talentInvoiceRateValue.getD 0
      let currency := ti.talentInvoicingCurrency.getD "USD"
      let total_hours := ts.total_hours
      let invoice_amount := invoiceAmount rate_type total_hours rate_value
      let invoice_number := "INV-" ++ c.yyyymm ++ "-" ++ toString (c.microsecond % 1000)
      let items : List InvoiceItem :=
        [{ description := "Timesheet " ++ tsid ++ " - " ++ toString total_hours ++ " hours"
           quantity := total_hours
           rate := rate_value
           amount := invoice_amount
           rate_type := some rate_type }]
      let inv : Invoice := {
        invoice_number := invoice_number
        project_id := some project_id
        talent_id := some talent_id
        timesheet_id := some tsid
        expense_id := none
        status := "draft"
        items := items
        currency := currency
        issue_date := c.today
        due_date := c.today + 30
        created_at := c.isoNow
        updated_at := c.isoNow }
      (.ok inv, { st with invoices := st.invoices ++ [inv] },
        [.read "timesheets", .read "talentInvoice", .read "billingInformation",
         .write "invoices"])

/-- `InvoiceHandler.create_expense_invoice`: read the expense, carry its
items over (or synthesise one from the total), insert the invoice. -/
def createExpenseInvoice (c : Clock) (st : Store) (eid talent_id : String) :
    Except String Invoice × Store × List StoreOp :=
  match st.findExpense eid with
  | none => (.error ("Expense " ++ eid ++ " not found"), st, [.read "expenses"])
  | some ex =>
    let total_amount := ex.total_amount.getD 0
    let currency := ex.currency.getD "USD"
    let invoice_number := "INV-" ++ c.yyyymm ++ "-" ++ toString (c.microsecond % 1000)
    let items0 : List InvoiceItem := ex.items.map (fun it =>
      { description := it.description.getD "Expense item"
        quantity := it.quantity.getD 1
        rate := it.amount.getD 0
        amount := it.amount.getD 0
        rate_type := none })
    let items := if items0.isEmpty then
        [{ description := "Expense " ++ eid
           quantity := 1
           rate := total_amount
           amount := total_amount
           rate_type := none }]
      else items0
    let inv : Invoice := {
      invoice_number := invoice_number
      project_id := ex.project_id
      talent_id := some talent_id
      timesheet_id := none
      expense_id := some eid
      status := "draft"
      items := items
      currency := currency
      issue_date := c.today
      due_date := c.today + 30
      created_at := c.isoNow
      updated_at := c.isoNow }
    (.ok inv, { st with invoices := st.invoices ++ [inv] },
      [.read "expenses", .write "invoices"])

/-- The normalized entity mapping handed to the orchestrator (dates appear
post-parse as day numbers; date and hour values produced by the extractor
are never empty strings, so presence models their truthiness). -/
structure Entities where
  timesheet_id : Option String := none
  invoice_number : Option String := none
  expense_id : Option String := none
  project_id : Option String := none
  talent_id : Option String := none
  user_id : Option String := none
  status : Option String := none
  start_date : Option Int := none
  end_date : Option Int := none
  hours : Option ℚ := none
deriving DecidableEq, Repr

/-- `BotOrchestrator._create_invoice` (lines 166-189): timesheet source
takes priority; an expense source without a talent raises before any store
access. -/
def createInvoiceOp (c : Clock) (st : Store) (e : Entities) :
    Except String (String × Invoice) × Store × List StoreOp :=
  let timesheet_id := e.timesheet_id
  let expense_id := e.expense_id
  let talent_id := pyOr e.talent_id e.user_id
  if truthyS timesheet_id then
    match createTimesheetInvoice c st (timesheet_id.getD "") with
    | (.ok inv, st', tr) => (.ok ("create_timesheet_invoice", inv), st', tr)
    | (.error msg, st', tr) => (.error msg, st', tr)
  else if truthyS expense_id then
    if !truthyS talent_id then
      (.error "talent_id required for expense invoice", st, [])
    else
      match createExpenseInvoice c st (expense_id.getD "") (talent_id.getD "") with
      | (.ok inv, st', tr) => (.ok ("create_expense_invoice", inv), st', tr)
      | (.error msg, st', tr) => (.error msg, st', tr)
  else
    (.error "Either timesheet_id or expense_id required", st, [])

/-- `BotOrchestrator._update_timesheet` (lines 301-330): a truthy status
selects the status transition; otherwise a full date pair selects range
regeneration with `hours` defaulting to 8.0 when falsy. -/
def updateTimesheetOp (c : Clock) (st : Store) (e : Entities) :
    Except String (Option Timesheet) × Store :=
  if !truthyS e.timesheet_id then (.error "timesheet_id required", st)
  else if truthyS e.status then
    updateTimesheetStatus c st (e.timesheet_id.getD "") (e.status.getD "")
  else if e.start_date.isSome && e.end_date.isSome then
    let hours_per_day := if truthyQ e.hours then e.hours.getD 0 else 8
    updateTimesheetDates c st (e.timesheet_id.getD "")
      (e.start_date.getD 0) (e.end_date.getD 0) hours_per_day
  else (.error "Either status or start_date/end_date required for update", st)

/-- `Intent` enumeration of `intent_classifier.py`. -/
inductive Intent where
  | CREATE | READ | UPDATE | DELETE | QUERY
deriving DecidableEq, Repr

/-- `EntityType` enumeration of `intent_classifier.py`. -/
inductive EntityType where
  | TIMESHEET | INVOICE | EXPENSE | PROJECT | TALENT
deriving DecidableEq, Repr

/-- The fields of the parsed-query envelope the classifier reads. -/
structure ParsedQuery where
  intent : Option String := none
  entity_type : Option String := none
deriving DecidableEq, Repr

/-- Python `str.upper()` on the ASCII labels involved. -/
def pyUpper (s : String) : String := String.mk (s.data.map Char.toUpper)

/-- Python `str.lower()` on the ASCII query texts involved. -/
def pyLower (s : String) : String := String.mk (s.data.map Char.toLower)

/-- Python `Intent(s)` enum construction by value: succeeds on exactly the
five member values. -/
def intentOfString (s : String) : Option Intent :=
  if s = "CREATE" then some .CREATE
  else if s = "READ" then some .READ
  else if s = "UPDATE" then some .UPDATE
  else if s = "DELETE" then some .DELETE
  else if s = "QUERY" then some .QUERY
  else none

/-- Python `EntityType(s)` enum construction by value. -/
def entityTypeOfString (s : String) : Option EntityType :=
  if s = "TIMESHEET" then some .TIMESHEET
  else if s = "INVOICE" then some .INVOICE
  else if s = "EXPENSE" then some .EXPENSE
  else if s = "PROJECT" then some .PROJECT
  else if s = "TALENT" then some .TALENT
  else none

/-- `IntentClassifier.classify`: default the missing field to "QUERY",
upper-case, construct the enum, fall back to QUERY on `ValueError`. -/
def classify (q : ParsedQuery) : Intent :=
  let intent_str := pyUpper (q.intent.getD "QUERY")
  match intentOfString intent_str with
  | some i => i
  | none => .QUERY

/-- `IntentClassifier.get_entity_type`: falsy field (absent or empty) gives
no entity type; an unrecognised value gives no entity type. -/
def getEntityType (q : ParsedQuery) : Option EntityType :=
  match q.entity_type with
  | none => none
  | some s => if s.isEmpty then none else entityTypeOfString (pyUpper s)

/- == Entity extractor: `extract_dates` (entity_extractor.py lines 40-87) ==
The two regex passes are embedded as character-list scanners with the same
left-to-right, non-overlapping semantics as `re.findall` / `re.finditer`
(ASCII digits and whitespace, which is what the queries contain). -/

/-- Numeric value of an ASCII digit character. -/
def digVal (c : Char) : ℕ := c.toNat - '0'.toNat

/-- Match exactly `n` digits at the head (`\d{n}`), returning them and the
rest of the input. -/
def takeDigits : ℕ → List Char → Option (List Char × List Char)
  | 0, l => some ([], l)
  | _ + 1, [] => none
  | n + 1, c :: rest =>
    if c.isDigit then
      match takeDigits n rest with
      | some (d, r) => some (c :: d, r)
      | none => none
    else none

/-- Try the pattern `\d{4}-\d{2}-\d{2}` anchored at the head; on success
return the matched characters and the remaining input. -/
def matchDateAt (l : List Char) : Option (List Char × List Char) :=
  match takeDigits 4 l with
  | none => none
  | some (y, r1) =>
    match r1 with
    | '-' :: r2 =>
      match takeDigits 2 r2 with
      | none => none
      | some (m, r3) =>
        match r3 with
        | '-' :: r4 =>
          match takeDigits 2 r4 with
          | none => none
          | some (d, r5) => some (y ++ '-' :: m ++ '-' :: d, r5)
        | _ => none
    | _ => none

/-- `re.findall(DATE_PATTERN, text)`: scan left to right; on a match,
record it and continue after its end, else advance one character. -/
def findAllDatesAux : ℕ → List Char → List String
  | 0, _ => []
  | _, [] => []
  | fuel + 1, l =>
    match matchDateAt l with
    | some (s, r) => String.mk s :: findAllDatesAux fuel r
    | none =>
      match l with
      | [] => []
      | _ :: rest => findAllDatesAux fuel rest

/-- All explicit `YYYY-MM-DD` tokens of the text, in order. -/
def findAllDates (text : String) : List String :=
  findAllDatesAux text.length text.data

/-- Greedy `\s+`: consume maximal whitespace, counting characters. -/
def takeWsMax : List Char → List Char × ℕ
  | [] => ([], 0)
  | c :: rest =>
    if c.isWhitespace then
      let r := takeWsMax rest
      (r.1, r.2 + 1)
    else (c :: rest, 0)

/-- `\s+(\d{1,2})` anchored at the head: one-plus whitespace then one or
two digits (greedy); returns (captured day value, rest, consumed length). -/
def matchDayTail (l : List Char) : Option (ℕ × List Char × ℕ) :=
  match l with
  | [] => none
  | c :: rest =>
    if c.isWhitespace then
      let w := takeWsMax rest
      match w.1 with
      | d1 :: d2 :: r2 =>
        if d1.isDigit then
          if d2.isDigit then some (digVal d1 * 10 + digVal d2, r2, w.2 + 3)
          else some (digVal d1, d2 :: r2, w.2 + 2)
        else none
      | [d1] =>
        if d1.isDigit then some (digVal d1, [], w.2 + 2) else none
      | [] => none
    else none

/-- Strip a literal (already lower-cased) pattern piece from the head. -/
def stripLit : List Char → List Char → Option (List Char)
  | [], l => some l
  | _ :: _, [] => none
  | a :: as, b :: bs => if a = b then stripLit as bs else none

/-- Try a month pattern `pre(?:ext)?\s+(\d{1,2})` anchored at the head of
the (lower-cased) input: the optional group is tried greedily first, with
backtracking to the bare short name. Returns (day, rest, consumed). -/
def tryMonthAt (pre ext l : List Char) : Option (ℕ × List Char × ℕ) :=
  match stripLit pre l with
  | none => none
  | some r1 =>
    let withExt :=
      match stripLit ext r1 with
      | none => none
      | some r2 =>
        match matchDayTail r2 with
        | some (day, rest, n) => some (day, rest, pre.length + ext.length + n)
        | none => none
    match withExt with
    | some res => some res
    | none =>
      match matchDayTail r1 with
      | some (day, rest, n) => some (day, rest, pre.length + n)
      | none => none

/-- One match of a month pattern: its start index and captured day. -/
structure MonthMatch where
  start : ℕ
  day : ℕ
deriving DecidableEq, Repr

/-- `re.finditer` for one month pattern over the lower-cased text: scan
left to right, non-overlapping. -/
def monthScanAux (pre ext : List Char) : ℕ → ℕ → List Char → List MonthMatch
  | 0, _, _ => []
  | _, _, [] => []
  | fuel + 1, i, l =>
    match tryMonthAt pre ext l with
    | some (day, r, consumed) =>
      { start := i, day := day } :: monthScanAux pre ext fuel (i + consumed) r
    | none =>
      match l with
      | [] => []
      | _ :: rest => monthScanAux pre ext fuel (i + 1) rest

/-- The `month_patterns` table in source order: short name, optional
extension, month number. -/
def monthTable : List (List Char × List Char × ℕ) :=
  [("jan".data, "uary".data, 1), ("feb".data, "ruary".data, 2),
   ("mar".data, "ch".data, 3), ("apr".data, "il".data, 4),
   ("may".data, [], 5), ("jun".data, "e".data, 6),
   ("jul".data, "y".data, 7), ("aug".data, "ust".data, 8),
   ("sep".data, "tember".data, 9), ("oct".data, "ober".data, 10),
   ("nov".data, "ember".data, 11), ("dec".data, "ember".data, 12)]

/-- The `dates` mapping produced by `extract_dates`: the two keys it may
populate. -/
structure DatesMap where
  start_date : Option String := none
  end_date : Option String := none
deriving DecidableEq, Repr

/-- Substring containment (Python `needle in haystack`). -/
def containsSub (needle : List Char) : List Char → Bool
  | [] => needle.isEmpty
  | l@(_ :: rest) => (stripLit needle l).isSome || containsSub needle rest

/-- `f"{n:02d}"` for the small numbers involved. -/
def pad2 (n : ℕ) : String :=
  if n < 10 then "0" ++ toString n else toString n

/-- Assignment step of the month-name pass for one match: route by whether
the lower-cased prefix before the match contains start/from or end/to. -/
def assignMonthMatch (year : ℕ) (lower : List Char) (month : ℕ)
    (d : DatesMap) (m : MonthMatch) : DatesMap :=
  let date_str := toString year ++ "-" ++ pad2 month ++ "-" ++ pad2 m.day
  let pfx := lower.take m.start
  if containsSub "start".data pfx || containsSub "from".data pfx then
    { d with start_date := some date_str }
  else if containsSub "end".data pfx || containsSub "to".data pfx then
    { d with end_date := some date_str }
  else if d.start_date = none then
    { d with start_date := some date_str }
  else
    { d with end_date := some date_str }

/-- The month-name pass of `extract_dates`: iterate the patterns in table
order, and the matches of each in text order. -/
def monthPass (year : ℕ) (text : String) : DatesMap :=
  let lower := (pyLower text).data
  monthTable.foldl
    (fun d entry =>
      (monthScanAux entry.1 entry.2.1 lower.length 0 lower).foldl
        (assignMonthMatch year lower entry.2.2) d)
    {}

/-- `EntityExtractor.extract_dates`: month-name pass first, then explicit
`YYYY-MM-DD` tokens overwrite `start_date` (first token) and `end_date`
(second token). `year` stands for `datetime.now().year`. -/
def extractDates (year : ℕ) (text : String) : DatesMap :=
  let d := monthPass year text
  match findAllDates text with
  | [] => d
  | m0 :: rest =>
    let d1 := { d with start_date := some m0 }
    match rest with
    | [] => d1
    | m1 :: _ => { d1 with end_date := some m1 }

/- == Concrete example values used by the witness theorems == -/

/-- A sample clock instant. -/
def clockW : Clock :=
  { yyyymm := "202510", microsecond := 123456, today := 20369,
    isoNow := "2025-10-12T09:00:00" }

/-- A stored timesheet with 40 accumulated hours. -/
def tsW : Timesheet :=
  { timesheet_id := "TS-202509-001", project_id := "p1", user_id := "t1",
    start_date := 0, end_date := 4, status := "draft", entries := [],
    total_hours := 40, created_at := "2025-09-01T00:00:00",
    updated_at := "2025-09-01T00:00:00" }

/-- Rate settings for `tsW`: Daily at 100. -/
def tiW : TalentInvoice :=
  { project_id := "p1", talent_id := "t1",
    talentInvoiceRateType := some "Daily", talentInvoiceRateValue := some 100,
    talentInvoicingCurrency := some "USD" }

/-- Store holding `tsW` and `tiW`. -/
def storeW : Store := { timesheets := [tsW], talentInvoices := [tiW] }

/-- A stored expense with no items. -/
def exW : Expense :=
  { expense_id := "e1", project_id := some "p1", total_amount := some 250,
    currency := some "USD", items := [] }

/-- Store holding `exW`. -/
def storeExW : Store := { expenses := [exW] }

/-- A stored invoice in status `sent`. -/
def invW : Invoice :=
  { invoice_number := "INV-202510-001", project_id := some "p1",
    talent_id := some "t1", timesheet_id := some "TS-202509-001",
    expense_id := none, status := "sent", items := [], currency := "USD",
    issue_date := 20340, due_date := 20370,
    created_at := "2025-10-01T00:00:00", updated_at := "2025-10-01T00:00:00" }

/-- Store holding `tsW` and `invW` (used by the status-update examples). -/
def storeUpdW : Store := { timesheets := [tsW], invoices := [invW] }

/-- The invoice `createTimesheetInvoice clockW storeW "TS-202509-001"`
produces. -/
def invTsW : Invoice :=
  { invoice_number := "INV-202510-456", project_id := some "p1",
    talent_id := some "t1", timesheet_id := some "TS-202509-001",
    expense_id := none, status := "draft",
    items := [{ description := "Timesheet TS-202509-001 - 40 hours",
                quantity := 40, rate := 100,
                amount := invoiceAmount "Daily" 40 100,
                rate_type := some "Daily" }],
    currency := "USD", issue_date := 20369, due_date := 20399,
    created_at := "2025-10-12T09:00:00", updated_at := "2025-10-12T09:00:00" }

/-- The invoice `createExpenseInvoice clockW storeExW "e1" "tal9"`
produces. -/
def invExW : Invoice :=
  { invoice_number := "INV-202510-456", project_id := some "p1",
    talent_id := some "tal9", timesheet_id := none, expense_id := some "e1",
    status := "draft",
    items := [{ description := "Expense e1", quantity := 1, rate := 250,
                amount := 250, rate_type := none }],
    currency := "USD", issue_date := 20369, due_date := 20399,
    created_at := "2025-10-12T09:00:00", updated_at := "2025-10-12T09:00:00" }

/- ===================== Helper lemmas ===================== -/

theorem updateFirstBy_fst_of_find? {α : Type} [DecidableEq α] (p : α → Bool)
    (f : α → α) (l : List α) (t : α) (hf : l.find? p = some t)
    (hne : f t ≠ t) : (updateFirstBy p f l).1 = 1 := by
  induction l with
  | nil => simp at hf
  | cons x rest ih =>
    by_cases hx : p x
    · rw [List.find?_cons_of_pos _ hx] at hf
      obtain rfl : x = t := by injection hf
      simp [updateFirstBy, hx, hne]
    · rw [List.find?_cons_of_neg _ hx] at hf
      simp [updateFirstBy, hx, ih hf]

theorem updateFirstBy_find?_of_find? {α : Type} [DecidableEq α] (p : α → Bool)
    (f : α → α) (l : List α) (t : α) (hf : l.find? p = some t)
    (hp : p (f t) = true) : (updateFirstBy p f l).2.find? p = some (f t) := by
  induction l with
  | nil => simp at hf
  | cons x rest ih =>
    by_cases hx : p x
    · rw [List.find?_cons_of_pos _ hx] at hf
      obtain rfl : x = t := by injection hf
      simp [updateFirstBy, hx, List.find?_cons_of_pos _ hp]
    · rw [List.find?_cons_of_neg _ hx] at hf
      simp [updateFirstBy, hx, List.find?_cons_of_neg _ hx, ih hf]

theorem updateFirstBy_map {α β : Type} [DecidableEq α] (p : α → Bool)
    (f : α → α) (g : α → β) (hg : ∀ x, g (f x) = g x) (l : List α) :
    (updateFirstBy p f l).2.map g = l.map g := by
  induction l with
  | nil => rfl
  | cons x rest ih =>
    by_cases hx : p x
    · simp [updateFirstBy, hx, hg]
    · simp [updateFirstBy, hx, ih]

theorem genEntriesAux_length (h : ℚ) :
    ∀ (n : ℕ) (d : Int), (genEntriesAux h n d).length = n := by
  intro n
  induction n with
  | zero => intro d; rfl
  | succ m ih => intro d; simp [genEntriesAux, ih]

theorem genEntriesAux_map_date (h : ℚ) :
    ∀ (n : ℕ) (d : Int),
      (genEntriesAux h n d).map (fun x => x.date)
        = (List.range n).map (fun i : ℕ => d + (i : Int)) := by
  intro n
  induction n with
  | zero => intro d; rfl
  | succ m ih =>
    intro d
    simp only [genEntriesAux, List.map_cons, ih]
    rw [List.range_succ_eq_map, List.map_cons, List.map_map]
    refine congrArg₂ List.cons (by simp) ?_
    apply List.map_congr_left
    intro i _
    simp only [Function.comp_apply]
    push_cast
    ring

theorem genEntriesAux_hours (h : ℚ) :
    ∀ (n : ℕ) (d : Int), ∀ x ∈ genEntriesAux h n d, x.hours = h := by
  intro n
  induction n with
  | zero => intro d x hx; simp [genEntriesAux] at hx
  | succ m ih =>
    intro d x hx
    simp only [genEntriesAux, List.mem_cons] at hx
    rcases hx with rfl | hx
    · rfl
    · exact ih (d + 1) x hx

theorem genEntriesAux_sum (h : ℚ) :
    ∀ (n : ℕ) (d : Int),
      ((genEntriesAux h n d).map (fun x => x.hours)).sum = n * h := by
  intro n
  induction n with
  | zero => intro d; simp [genEntriesAux]
  | succ m ih =>
    intro d
    simp only [genEntriesAux, List.map_cons, List.sum_cons, ih]
    push_cast
    ring

theorem dayCount_of_le {s e : Int} (hs : s ≤ e) :
    dayCount s e = (e - s).toNat + 1 := by
  unfold dayCount
  omega

theorem updateTimesheetDates_found (c : Clock) (st : Store) (tid : String)
    (s e : Int) (h : ℚ) (t : Timesheet)
    (hf : st.findTimesheet tid = some t) (hne : t.updated_at ≠ c.isoNow) :
    updateTimesheetDates c st tid s e h
      = (.ok (some (datesSet c s e h t)),
         { st with timesheets := (updateFirstBy (fun x => x.timesheet_id == tid)
            (datesSet c s e h) st.timesheets).2 }) ∧
    ({ st with timesheets := (updateFirstBy (fun x => x.timesheet_id == tid)
        (datesSet c s e h) st.timesheets).2 } : Store).findTimesheet tid
      = some (datesSet c s e h t) := by
  have hset : datesSet c s e h t ≠ t := by
    intro heq
    exact hne ((congrArg (fun x => x.updated_at) heq).symm)
  have hp : (fun x : Timesheet => x.timesheet_id == tid) (datesSet c s e h t) = true := by
    have := List.find?_some hf
    simpa [datesSet] using this
  have h1 := updateFirstBy_fst_of_find? _ (datesSet c s e h) st.timesheets t hf hset
  have h2 := updateFirstBy_find?_of_find? _ (datesSet c s e h) st.timesheets t hf hp
  constructor
  · simp only [updateTimesheetDates, hf, h1, if_neg (one_ne_zero)]
    simp only [Store.findTimesheet]
    rw [h2]
  · simp only [Store.findTimesheet]
    exact h2

theorem updateTimesheetStatus_found (c : Clock) (st : Store) (tid status : String)
    (t : Timesheet) (hf : st.findTimesheet tid = some t)
    (hvalid : status ∈ ["draft", "submitted", "approved", "rejected"])
    (hne : statusSet c status t ≠ t) :
    updateTimesheetStatus c st tid status
      = (.ok (some (statusSet c status t)),
         { st with timesheets := (updateFirstBy (fun x => x.timesheet_id == tid)
            (statusSet c status) st.timesheets).2 }) := by
  have hp : (fun x : Timesheet => x.timesheet_id == tid) (statusSet c status t) = true := by
    have := List.find?_some hf
    simpa [statusSet] using this
  have h1 := updateFirstBy_fst_of_find? _ (statusSet c status) st.timesheets t hf hne
  have h2 := updateFirstBy_find?_of_find? _ (statusSet c status) st.timesheets t hf hp
  simp only [updateTimesheetStatus, hvalid, if_true, h1, if_neg (one_ne_zero)]
  simp only [Store.findTimesheet]
  rw [h2]

theorem updateInvoiceStatus_found (c : Clock) (st : Store) (num status : String)
    (v : Invoice) (hf : st.findInvoice num = some v)
    (hvalid : status ∈ ["draft", "sent", "paid", "cancelled"])
    (hne : invStatusSet c status v ≠ v) :
    updateInvoiceStatus c st num status
      = (.ok (some (invStatusSet c status v)),
         { st with invoices := (updateFirstBy (fun x => x.invoice_number == num)
            (invStatusSet c status) st.invoices).2 }) := by
  have hp : (fun x : Invoice => x.invoice_number == num) (invStatusSet c status v) = true := by
    have := List.find?_some hf
    simpa [invStatusSet] using this
  have h1 := updateFirstBy_fst_of_find? _ (invStatusSet c status) st.invoices v hf hne
  have h2 := updateFirstBy_find?_of_find? _ (invStatusSet c status) st.invoices v hf hp
  simp only [updateInvoiceStatus, hvalid, if_true, h1, if_neg (one_ne_zero)]
  simp only [Store.findInvoice]
  rw [h2]

theorem updateTimesheetStatus_preserves (c : Clock) (st : Store)
    (tid status : String) :
    (updateTimesheetStatus c st tid status).2.timesheets.map
        (fun t => (t.start_date, t.end_date, t.entries, t.total_hours))
      = st.timesheets.map
        (fun t => (t.start_date, t.end_date, t.entries, t.total_hours)) := by
  simp only [updateTimesheetStatus]
  by_cases hv : status ∈ ["draft", "submitted", "approved", "rejected"]
  · simp only [hv, if_true]
    split
    · exact updateFirstBy_map (fun t => t.timesheet_id == tid) (statusSet c status)
        (fun t => (t.start_date, t.end_date, t.entries, t.total_hours))
        (fun x => rfl) st.timesheets
    · exact updateFirstBy_map (fun t => t.timesheet_id == tid) (statusSet c status)
        (fun t => (t.start_date, t.end_date, t.entries, t.total_hours))
        (fun x => rfl) st.timesheets
  · simp [hv]

/- ===================== Claim theorems ===================== -/

/-- Claim C1: for a timesheet-sourced invoice with source total hours H and
rate value R, the computed amount is H×R for Hourly, (H/8)×R for Daily,
(H/40)×R for Weekly, (H/160)×R for Monthly, and 0 for any other rate type;
the unknown-rate case is silent: once the timesheet and the rate record are
found, `create_timesheet_invoice` succeeds and its single line item carries
exactly the computed amount. -/
theorem claim1_invoice_amount (H R : ℚ) (rt : String) (c : Clock) (st : Store)
    (tsid : String) (ts : Timesheet) (ti : TalentInvoice)
    (hts : st.findTimesheet tsid = some ts)
    (hti : st.findTalentInvoice ts.project_id ts.user_id = some ti) :
    invoiceAmount "Hourly" H R = H * R ∧
    invoiceAmount "Daily" H R = H / 8 * R ∧
    invoiceAmount "Weekly" H R = H / 40 * R ∧
    invoiceAmount "Monthly" H R = H / 160 * R ∧
    (rt ≠ "Hourly" → rt ≠ "Daily" → rt ≠ "Weekly" → rt ≠ "Monthly" →
      invoiceAmount rt H R = 0) ∧
    ∃ inv st' tr, createTimesheetInvoice c st tsid = (.ok inv, st', tr) ∧
      inv.items.map (fun it => it.amount)
        = [invoiceAmount (ti.talentInvoiceRateType.getD "Hourly") ts.total_hours
            (ti.talentInvoiceRateValue.getD 0)] := by
  refine ⟨?_, ?_, ?_, ?_, ?_, ?_⟩
  · unfold invoiceAmount
    rw [if_pos rfl]
  · unfold invoiceAmount
    rw [if_neg (by decide), if_pos rfl]
  · unfold invoiceAmount
    rw [if_neg (by decide), if_neg (by decide), if_pos rfl]
    norm_num
  · unfold invoiceAmount
    rw [if_neg (by decide), if_neg (by decide), if_neg (by decide), if_pos rfl]
    norm_num
  · intro ha hb hc hd
    unfold invoiceAmount
    rw [if_neg ha, if_neg hb, if_neg hc, if_neg hd]
  · simp only [createTimesheetInvoice, hts, hti]
    refine ⟨_, _, _, rfl, ?_⟩
    simp

/-- Witness for C1 at H = 40, Daily, R = 100 (amount 500), with an unknown
rate type giving 0, and a concrete successful invoice creation. -/
theorem claim1_invoice_amount_witness :
    invoiceAmount "Daily" 40 100 = 500 ∧
    invoiceAmount "FixedPrice" 40 100 = 0 ∧
    (∃ inv st' tr,
      createTimesheetInvoice clockW storeW "TS-202509-001" = (.ok inv, st', tr) ∧
      inv.items.map (fun it => it.amount) = [invoiceAmount "Daily" 40 100]) := by
  obtain ⟨-, h2, -, -, h5, h6⟩ :=
    claim1_invoice_amount 40 100 "FixedPrice" clockW storeW "TS-202509-001"
      tsW tiW rfl rfl
  refine ⟨?_, ?_, ?_⟩
  · rw [h2]; norm_num
  · exact h5 (by decide) (by decide) (by decide) (by decide)
  · exact h6

/-- Claim C3: when an update-timesheet entity mapping carries a truthy
status together with both dates, the orchestrator takes exactly the
status-transition path, and no timesheet in the store has its date range,
entries or total hours changed. -/
theorem claim3_status_priority (c : Clock) (st : Store) (e : Entities)
    (h1 : truthyS e.timesheet_id = true) (h2 : truthyS e.status = true)
    (h3 : e.start_date.isSome = true) (h4 : e.end_date.isSome = true) :
    updateTimesheetOp c st e
      = updateTimesheetStatus c st (e.timesheet_id.getD "") (e.status.getD "") ∧
    (updateTimesheetOp c st e).2.timesheets.map
        (fun t => (t.start_date, t.end_date, t.entries, t.total_hours))
      = st.timesheets.map
        (fun t => (t.start_date, t.end_date, t.entries, t.total_hours)) := by
  have hop : updateTimesheetOp c st e
      = updateTimesheetStatus c st (e.timesheet_id.getD "") (e.status.getD "") := by
    simp [updateTimesheetOp, h1, h2]
  exact ⟨hop, by rw [hop]; exact updateTimesheetStatus_preserves c st _ _⟩

/-- Witness for C3: a mapping with timesheet id, status `approved` and both
dates takes the status path and leaves entries untouched. -/
theorem claim3_status_priority_witness :
    updateTimesheetOp clockW storeUpdW
        { timesheet_id := some "TS-202509-001", status := some "approved",
          start_date := some 10, end_date := some 12 }
      = updateTimesheetStatus clockW storeUpdW "TS-202509-001" "approved" ∧
    (updateTimesheetOp clockW storeUpdW
        { timesheet_id := some "TS-202509-001", status := some "approved",
          start_date := some 10, end_date := some 12 }).2.timesheets.map
        (fun t => (t.start_date, t.end_date, t.entries, t.total_hours))
      = storeUpdW.timesheets.map
        (fun t => (t.start_date, t.end_date, t.entries, t.total_hours)) :=
  claim3_status_priority clockW storeUpdW
    { timesheet_id := some "TS-202509-001", status := some "approved",
      start_date := some 10, end_date := some 12 } rfl rfl rfl rfl

/-- Claim C4: a create-invoice request with an expense id but no timesheet
id and no talent (neither `talent_id` nor `user_id`) fails with
"talent_id required for expense invoice", the store is returned unchanged
and the trace of store operations is empty. -/
theorem claim4_expense_invoice_requires_talent (c : Clock) (st : Store)
    (e : Entities)
    (h1 : truthyS e.timesheet_id = false) (h2 : truthyS e.expense_id = true)
    (h3 : truthyS e.talent_id = false) (h4 : truthyS e.user_id = false) :
    createInvoiceOp c st e
      = (.error "talent_id required for expense invoice", st, []) := by
  simp [createInvoiceOp, pyOr, h1, h2, h3, h4]

/-- Witness for C4: a mapping holding only an expense id. -/
theorem claim4_expense_invoice_requires_talent_witness :
    createInvoiceOp clockW storeExW { expense_id := some "e1" }
      = (.error "talent_id required for expense invoice", storeExW, []) :=
  claim4_expense_invoice_requires_talent clockW storeExW
    { expense_id := some "e1" } rfl rfl rfl rfl

/-- Claim C5: an intent string outside the five-member enumeration (after
upper-casing) always classifies to QUERY, and an entity-type string outside
its enumeration always yields no entity type; both functions are total, so
neither ever raises. -/
theorem claim5_unknown_labels_default :
    (∀ (q : ParsedQuery) (s : String), q.intent = some s →
      pyUpper s ∉ ["CREATE", "READ", "UPDATE", "DELETE", "QUERY"] →
      classify q = .QUERY) ∧
    (∀ (q : ParsedQuery) (t : String), q.entity_type = some t →
      pyUpper t ∉ ["TIMESHEET", "INVOICE", "EXPENSE", "PROJECT", "TALENT"] →
      getEntityType q = none) := by
  constructor
  · intro q s hi hs
    simp only [List.mem_cons, List.not_mem_nil, or_false, not_or] at hs
    obtain ⟨n1, n2, n3, n4, n5⟩ := hs
    simp [classify, hi, intentOfString, n1, n2, n3, n4, n5]
  · intro q t he ht
    simp only [List.mem_cons, List.not_mem_nil, or_false, not_or] at ht
    obtain ⟨n1, n2, n3, n4, n5⟩ := ht
    by_cases hemp : t.isEmpty
    · simp [getEntityType, he, hemp]
    · simp [getEntityType, he, hemp, entityTypeOfString, n1, n2, n3, n4, n5]

/-- Witness for C5 at intent "modify" and entity type "widget". -/
theorem claim5_unknown_labels_default_witness :
    classify { intent := some "modify", entity_type := some "widget" } = .QUERY ∧
    getEntityType { intent := some "modify", entity_type := some "widget" } = none :=
  ⟨claim5_unknown_labels_default.1
      { intent := some "modify", entity_type := some "widget" } "modify" rfl
      (by decide),
    claim5_unknown_labels_default.2
      { intent := some "modify", entity_type := some "widget" } "widget" rfl
      (by decide)⟩

/-- Claim C2: for start ≤ end and uniform hours h, the generated entry list
has one entry per calendar day of the closed range in ascending order, each
with hours h, and total hours h × day count; `create_timesheet` embeds
exactly that list, `update_timesheet_dates` replaces the stored entry list
with exactly that list whatever it was before, and regenerating from the
same (start, end, h) — also via a second dates update — reproduces the
same entries, totals and bounds (the generator is a pure function, hence
deterministic). -/
theorem claim2_entry_generation (s e : Int) (h : ℚ) (hs : s ≤ e) :
    (generateEntries s e h).length = (e - s).toNat + 1 ∧
    (generateEntries s e h).map (fun x => x.date)
      = (List.range ((e - s).toNat + 1)).map (fun i : ℕ => s + (i : Int)) ∧
    (∀ x ∈ generateEntries s e h, x.hours = h) ∧
    generatedTotalHours s e h = h * ((e - s).toNat + 1) ∧
    (∀ (c : Clock) (st : Store) (pid tid : String),
      (createTimesheet c st pid tid s e h).1.entries = generateEntries s e h ∧
      (createTimesheet c st pid tid s e h).1.total_hours
        = generatedTotalHours s e h) ∧
    (∀ (c : Clock) (st : Store) (tid : String) (t : Timesheet),
      st.findTimesheet tid = some t → t.updated_at ≠ c.isoNow →
      ∃ t', (updateTimesheetDates c st tid s e h).1 = .ok (some t') ∧
        t'.entries = generateEntries s e h ∧
        t'.total_hours = generatedTotalHours s e h ∧
        t'.start_date = s ∧ t'.end_date = e) ∧
    (∀ (c c' : Clock) (st : Store) (tid : String) (t : Timesheet),
      st.findTimesheet tid = some t → t.updated_at ≠ c.isoNow →
      c'.isoNow ≠ c.isoNow →
      ∃ t'', (updateTimesheetDates c'
          (updateTimesheetDates c st tid s e h).2 tid s e h).1 = .ok (some t'') ∧
        t''.entries = generateEntries s e h ∧
        t''.total_hours = generatedTotalHours s e h ∧
        t''.start_date = s ∧ t''.end_date = e) := by
  have hcount : dayCount s e = (e - s).toNat + 1 := dayCount_of_le hs
  refine ⟨?_, ?_, ?_, ?_, ?_, ?_, ?_⟩
  · rw [generateEntries, genEntriesAux_length, hcount]
  · rw [generateEntries, genEntriesAux_map_date, hcount]
  · intro x hx
    exact genEntriesAux_hours h (dayCount s e) s x hx
  · rw [generatedTotalHours, generateEntries, genEntriesAux_sum, hcount]
    push_cast
    ring
  · intro c st pid tid
    exact ⟨rfl, rfl⟩
  · intro c st tid t hf hne
    have hl := updateTimesheetDates_found c st tid s e h t hf hne
    refine ⟨datesSet c s e h t, ?_, rfl, rfl, rfl, rfl⟩
    rw [hl.1]
  · intro c c' st tid t hf hne hcc
    have h1 := updateTimesheetDates_found c st tid s e h t hf hne
    have hne2 : (datesSet c s e h t).updated_at ≠ c'.isoNow := by
      simpa [datesSet] using hcc.symm
    have h2 := updateTimesheetDates_found c'
      { st with timesheets := (updateFirstBy (fun x => x.timesheet_id == tid)
          (datesSet c s e h) st.timesheets).2 }
      tid s e h (datesSet c s e h t) h1.2 hne2
    refine ⟨datesSet c' s e h (datesSet c s e h t), ?_, rfl, rfl, rfl, rfl⟩
    rw [h1.1]
    simp only []
    rw [h2.1]

/-- Witness for C2 on the range day 0 .. day 2 at 8 hours/day, including a
concrete dates update whose entry list is fully replaced. -/
theorem claim2_entry_generation_witness :
    (generateEntries 0 2 8).length = 3 ∧
    (generateEntries 0 2 8).map (fun x => x.date) = [0, 1, 2] ∧
    generatedTotalHours 0 2 8 = 24 ∧
    (∃ t', (updateTimesheetDates clockW storeUpdW "TS-202509-001" 0 2 8).1
        = .ok (some t') ∧ t'.entries = generateEntries 0 2 8) := by
  obtain ⟨h1, h2, -, h4, -, h6, -⟩ := claim2_entry_generation 0 2 8 (by decide)
  refine ⟨h1, ?_, ?_, ?_⟩
  · rw [h2]; decide
  · rw [h4]; norm_num [show Int.toNat 2 = 2 from rfl]
  · obtain ⟨t', ht1, ht2, -, -, -⟩ :=
      h6 clockW storeUpdW "TS-202509-001" tsW rfl (by decide)
    exact ⟨t', ht1, ht2⟩

/-- Claim C6: whenever the text contains at least two explicit `YYYY-MM-DD`
tokens (and month-name tokens as well — the month pass produced some
assignment), `extract_dates` returns the first explicit token as start_date
and the second as end_date, overwriting whatever the month-name pass
assigned. -/
theorem claim6_explicit_dates_override (year : ℕ) (text m0 m1 : String)
    (rest : List String) (hdm : findAllDates text = m0 :: m1 :: rest)
    (hmn : monthPass year text ≠ { start_date := none, end_date := none }) :
    extractDates year text = { start_date := some m0, end_date := some m1 } := by
  clear hmn
  unfold extractDates
  rw [hdm]

/-- Witness for C6 on a query holding an "Oct 1" token and two explicit
dates. -/
theorem claim6_explicit_dates_override_witness :
    findAllDates "from Oct 1 2025-10-15 2025-11-07"
      = ["2025-10-15", "2025-11-07"] ∧
    monthPass 2025 "from Oct 1 2025-10-15 2025-11-07"
      = { start_date := some "2025-10-01", end_date := none } ∧
    extractDates 2025 "from Oct 1 2025-10-15 2025-11-07"
      = { start_date := some "2025-10-15", end_date := some "2025-11-07" } := by
  have hd : findAllDates "from Oct 1 2025-10-15 2025-11-07"
      = ["2025-10-15", "2025-11-07"] := rfl
  have hm : monthPass 2025 "from Oct 1 2025-10-15 2025-11-07"
      = { start_date := some "2025-10-01", end_date := none } := rfl
  exact ⟨hd, hm,
    claim6_explicit_dates_override 2025 _ _ _ [] hd (by rw [hm]; simp)⟩

/-- Claim C7 evaluated on the code: for the query
"Create timesheet from Oct 15 to Nov 7" the month-name pass first assigns
Oct 15 to start_date (prefix holds "from"), but the prefix before "Nov 7"
also holds "from", so Nov 7 overwrites start_date and end_date is never
assigned — the result holds only start_date = Nov 7, contradicting the
repository's own test, which asserts that both keys are present. -/
theorem claim7_extract_dates_mixed_keywords :
    extractDates 2025 "Create timesheet from Oct 15 to Nov 7"
      = { start_date := some "2025-11-07", end_date := none } := rfl

/-- Claim C8: created timesheet and invoice identifiers have the form
PREFIX-YYYYMM-N with PREFIX = TS / INV and N = microsecond-of-second mod
1000 (hence < 1000), and the scheme is not collision-free: different
microsecond values can yield the same identifier. -/
theorem claim8_id_format (c : Clock) (st1 st2 st3 : Store)
    (pid tid tsid eid talid : String) (s e : Int) (h : ℚ)
    (inv1 inv2 : Invoice) (r2 r3 : Store) (tr2 tr3 : List StoreOp)
    (h2 : createTimesheetInvoice c st2 tsid = (.ok inv1, r2, tr2))
    (h3 : createExpenseInvoice c st3 eid talid = (.ok inv2, r3, tr3)) :
    (createTimesheet c st1 pid tid s e h).1.timesheet_id
      = "TS-" ++ c.yyyymm ++ "-" ++ toString (c.microsecond % 1000) ∧
    inv1.invoice_number
      = "INV-" ++ c.yyyymm ++ "-" ++ toString (c.microsecond % 1000) ∧
    inv2.invoice_number
      = "INV-" ++ c.yyyymm ++ "-" ++ toString (c.microsecond % 1000) ∧
    c.microsecond % 1000 < 1000 ∧
    (∃ m1 m2 : ℕ, m1 ≠ m2 ∧
      (createTimesheet { c with microsecond := m1 } st1 pid tid s e h).1.timesheet_id
        = (createTimesheet { c with microsecond := m2 } st1 pid tid s e h).1.timesheet_id) := by
  refine ⟨rfl, ?_, ?_, Nat.mod_lt _ (by norm_num), ⟨0, 1000, by norm_num, by simp only [createTimesheet]⟩⟩
  · rcases hft : st2.findTimesheet tsid with - | ts
    · simp [createTimesheetInvoice, hft] at h2
    · rcases hti : st2.findTalentInvoice ts.project_id ts.user_id with - | ti
      · simp [createTimesheetInvoice, hft, hti] at h2
      · simp only [createTimesheetInvoice, hft, hti, Prod.mk.injEq,
          Except.ok.injEq] at h2
        obtain ⟨h2a, -, -⟩ := h2
        subst h2a
        rfl
  · rcases hfe : st3.findExpense eid with - | ex
    · simp [createExpenseInvoice, hfe] at h3
    · simp only [createExpenseInvoice, hfe, Prod.mk.injEq, Except.ok.injEq] at h3
      obtain ⟨h3a, -, -⟩ := h3
      subst h3a
      rfl

/-- Witness for C8: concrete creations at microsecond 123456 (suffix 456),
and the collision at microseconds 0 and 1000. -/
theorem claim8_id_format_witness :
    (createTimesheet clockW {} "p2" "t2" 0 1 8).1.timesheet_id
      = "TS-202510-456" ∧
    invTsW.invoice_number = "INV-202510-456" ∧
    invExW.invoice_number = "INV-202510-456" ∧
    (∃ m1 m2 : ℕ, m1 ≠ m2 ∧
      (createTimesheet { clockW with microsecond := m1 } {} "p2" "t2" 0 1 8).1.timesheet_id
        = (createTimesheet { clockW with microsecond := m2 } {} "p2" "t2" 0 1 8).1.timesheet_id) := by
  obtain ⟨w1, w2, w3, -, w5⟩ := claim8_id_format clockW {} storeW storeExW
    "p2" "t2" "TS-202509-001" "e1" "tal9" 0 1 8 invTsW invExW
    { storeW with invoices := [invTsW] } { storeExW with invoices := [invExW] }
    [.read "timesheets", .read "talentInvoice", .read "billingInformation",
      .write "invoices"]
    [.read "expenses", .write "invoices"] (by rfl) (by rfl)
  exact ⟨w1, w2, w3, w5⟩

/-- Claim C9 counterexample: the timesheet document `create_timesheet`
builds has no `talent_id` key — the owning person is stored under
`user_id`. -/
theorem claim9_counterexample :
    "talent_id" ∉
      (timesheetDoc (createTimesheet clockW {} "p1" "tal1" 0 2 8).1).map
        Prod.fst := by
  decide

/-- Claim C9 as amended: every timesheet document produced by
`create_timesheet` stores the owning person's identifier (the talent passed
to the create operation) under the field `user_id` — not `talent_id` —
alongside project_id, start_date, end_date, status (draft), entries and
total_hours. -/
theorem claim9_user_id_field (c : Clock) (st : Store) (pid talid : String)
    (s e : Int) (h : ℚ) :
    (timesheetDoc (createTimesheet c st pid talid s e h).1).map Prod.fst
      = ["timesheet_id", "project_id", "user_id", "start_date", "end_date",
         "status", "entries", "total_hours", "created_at", "updated_at"] ∧
    "talent_id" ∉
      (timesheetDoc (createTimesheet c st pid talid s e h).1).map Prod.fst ∧
    (timesheetDoc (createTimesheet c st pid talid s e h).1).lookup "user_id"
      = some (.str talid) ∧
    (timesheetDoc (createTimesheet c st pid talid s e h).1).lookup "project_id"
      = some (.str pid) ∧
    (timesheetDoc (createTimesheet c st pid talid s e h).1).lookup "start_date"
      = some (.day s) ∧
    (timesheetDoc (createTimesheet c st pid talid s e h).1).lookup "end_date"
      = some (.day e) ∧
    (timesheetDoc (createTimesheet c st pid talid s e h).1).lookup "status"
      = some (.str "draft") ∧
    (timesheetDoc (createTimesheet c st pid talid s e h).1).lookup "entries"
      = some (.entryList (generateEntries s e h)) ∧
    (timesheetDoc (createTimesheet c st pid talid s e h).1).lookup "total_hours"
      = some (.rat (generatedTotalHours s e h)) := by
  refine ⟨rfl, ?_, rfl, rfl, rfl, rfl, rfl, rfl, rfl⟩
  have hkeys : (timesheetDoc (createTimesheet c st pid talid s e h).1).map Prod.fst
      = ["timesheet_id", "project_id", "user_id", "start_date", "end_date",
         "status", "entries", "total_hours", "created_at", "updated_at"] := rfl
  rw [hkeys]
  decide

/-- Claim C10 counterexample: a stored timesheet already in status `draft`
and a stored invoice already in status `sent`; updating each to the status
it already holds succeeds and returns the record (with a fresh
`updated_at`), because the `$set` also writes `updated_at`, so the store
reports the document as modified — no not-found error is raised. -/
theorem claim10_counterexample :
    (storeUpdW.findTimesheet "TS-202509-001").map (fun t => t.status)
      = some "draft" ∧
    (updateTimesheetStatus clockW storeUpdW "TS-202509-001" "draft").1
      = .ok (some { tsW with status := "draft", updated_at := clockW.isoNow }) ∧
    (storeUpdW.findInvoice "INV-202510-001").map (fun v => v.status)
      = some "sent" ∧
    (updateInvoiceStatus clockW storeUpdW "INV-202510-001" "sent").1
      = .ok (some { invW with status := "sent", updated_at := clockW.isoNow }) :=
  ⟨rfl, rfl, rfl, rfl⟩

/-- Claim C10 as amended: updating an existing timesheet or invoice to the
status it already holds does not raise the not-found error as long as the
fresh `updated_at` timestamp differs from the stored one: the `$set` then
still modifies the document, the modified count is 1, and the updated
record is returned; the zero-modified-count not-found detection fires only
when no document matches (or when the entire `$set` is a no-op, i.e. the
same status and an identical timestamp). -/
theorem claim10_same_status_update :
    (∀ (c : Clock) (st : Store) (tid s : String) (t : Timesheet),
      st.findTimesheet tid = some t → t.status = s →
      s ∈ ["draft", "submitted", "approved", "rejected"] →
      t.updated_at ≠ c.isoNow →
      (updateTimesheetStatus c st tid s).1
        = .ok (some { t with status := s, updated_at := c.isoNow })) ∧
    (∀ (c : Clock) (st : Store) (num s : String) (v : Invoice),
      st.findInvoice num = some v → v.status = s →
      s ∈ ["draft", "sent", "paid", "cancelled"] →
      v.updated_at ≠ c.isoNow →
      (updateInvoiceStatus c st num s).1
        = .ok (some { v with status := s, updated_at := c.isoNow })) := by
  constructor
  · intro c st tid s t hf hst hv hts
    have hne : statusSet c s t ≠ t := by
      intro heq
      exact hts ((congrArg (fun x => x.updated_at) heq).symm)
    rw [updateTimesheetStatus_found c st tid s t hf hv hne]
    rfl
  · intro c st num s v hf hst hv hts
    have hne : invStatusSet c s v ≠ v := by
      intro heq
      exact hts ((congrArg (fun x => x.updated_at) heq).symm)
    rw [updateInvoiceStatus_found c st num s v hf hv hne]
    rfl

/-- Witness for the amended C10 at the concrete store of the
counterexample. -/
theorem claim10_same_status_update_witness :
    (updateTimesheetStatus clockW storeUpdW "TS-202509-001" "draft").1
      = .ok (some { tsW with status := "draft", updated_at := clockW.isoNow }) ∧
    (updateInvoiceStatus clockW storeUpdW "INV-202510-001" "sent").1
      = .ok (some { invW with status := "sent", updated_at := clockW.isoNow }) :=
  ⟨claim10_same_status_update.1 clockW storeUpdW "TS-202509-001" "draft" tsW
      rfl rfl (by decide) (by decide),
    claim10_same_status_update.2 clockW storeUpdW "INV-202510-001" "sent" invW
      rfl rfl (by decide) (by decide)⟩

end TSBot
